import Mathlib

/-!
Shallow embedding of `src/hassio/misc/gdbus.py` (the `DBus` proxy over the
`gdbus` command-line tool) and verification of its specification claims.

Modelling conventions:
* The exception hierarchy `DBusFatalError / DBusReturnError / DBusParseError`
  (all subclasses of `DBusError`, gdbus.py lines 15-32) becomes the inductive
  `DBusError`; `AttributeError` raised by `__getattr__` becomes a separate
  constructor of `InvokeError`, since it is not a `DBusError`.
* A command handed to the OS is represented by its formatted command-line
  string; `shlex.split` (standard library) tokenization of that string is
  absorbed into the transport, which consumes the full line.  The OS behaviour
  of `asyncio.create_subprocess_exec` is a function `Transport` from the
  command line to a `ProcResult`: either the spawn raises `OSError`
  (`spawnFailure`) or the process completes with a return code and decoded
  standard output.
* `xml.etree.ElementTree.fromstring` (standard library) is passed in as a
  parameter `fromstring : String → Option XMLElem`; `none` stands for it
  raising `ET.ParseError`.
* Every operation that can hand commands to the transport also returns the
  list of command lines it actually handed over (its transport trace), and
  every method on the `DBus` object returns the (possibly updated) object, so
  that process-spawn counts and state frames are provable facts.
* Python semantics of `connect` (gdbus.py line 48): `self._init_proxy()`
  calls an `async def` function WITHOUT `await`, which merely allocates a
  coroutine object and never executes its body.  Hence the embedding of
  `connect` performs no transport exchange, no parse, and no method-table
  population; the body of `_init_proxy` is embedded separately as
  `DBus.init_proxy`, which is what would run if the coroutine were awaited.
-/

namespace Gdbus

/-- Error taxonomy of gdbus.py lines 15-32: the three concrete subclasses of
the `DBusError` base exception. -/
inductive DBusError where
  | DBusFatalError
  | DBusReturnError
  | DBusParseError
  deriving DecidableEq, Repr

/-- Outcome of asking the OS to run one command (gdbus.py lines 107-115):
either `create_subprocess_exec`/`communicate` raises `OSError`
(`spawnFailure`), or the process completes with an exit status and the
decoded text of its captured standard output. -/
inductive ProcResult where
  | spawnFailure
  | completed (returncode : Int) (stdout : String)
  deriving DecidableEq, Repr

/-- A transport behaviour: what the OS does for each command line.  This is
the environment consumed by `_send`; it is a parameter of the embedding. -/
abbrev Transport := String → ProcResult

/-- XML element tree, the shape produced by `xml.etree.ElementTree`:
a tag, an attribute list, and child elements. -/
inductive XMLElem where
  | mk (tag : String) (attrs : List (String × String)) (children : List XMLElem)

/-- Tag of an element. -/
def XMLElem.tag : XMLElem → String
  | .mk t _ _ => t

/-- Attributes of an element. -/
def XMLElem.attrs : XMLElem → List (String × String)
  | .mk _ a _ => a

/-- Children of an element. -/
def XMLElem.children : XMLElem → List XMLElem
  | .mk _ _ c => c

/-- Python `Element.get(key)`: the value of attribute `key`, or `None` when
the attribute is absent. -/
def XMLElem.get (e : XMLElem) (key : String) : Option String :=
  (e.attrs.find? fun p => p.1 == key).map Prod.snd

/-- All elements of a forest in document (preorder) order: each element,
then its descendants, then its following siblings. -/
def descendantsList : List XMLElem → List XMLElem
  | [] => []
  | XMLElem.mk tag attrs children :: rest =>
      XMLElem.mk tag attrs children :: (descendantsList children ++ descendantsList rest)

/-- Python `xml.findall(".//method")`: every descendant of the root element
whose tag is `method`, in document order (gdbus.py line 76). -/
def XMLElem.findallMethods (e : XMLElem) : List XMLElem :=
  (descendantsList e.children).filter fun m => m.tag == "method"

/-- The `INTROSPECT` command-line template of gdbus.py lines 9-10, with the
`{bus}` and `{obj}` fields substituted as in `str.format`. -/
def INTROSPECT (bus obj : String) : String :=
  "gdbus introspect --system --dest " ++ bus ++ " --object-path " ++ obj ++ " --xml"

/-- The `CALL` command-line template of gdbus.py lines 11-12, with the
`{bus}`, `{obj}`, `{method}` and `{args}` fields substituted as in
`str.format`; note the method identifier is qualified as `{obj}.{method}`. -/
def CALL (bus obj method args : String) : String :=
  "gdbus call --system --dest " ++ bus ++ " --object-path " ++ obj ++
    " --method " ++ obj ++ "." ++ method ++ " " ++ args

/-- State of a `DBus` object (gdbus.py lines 38-42): the bus name, the object
path, and the `methods` list.  A list entry is `method.get('name')`, hence an
`Option String` (`none` when a `<method>` element has no `name` attribute). -/
structure DBus where
  bus_name : String
  object_path : String
  methods : List (Option String)
  deriving DecidableEq, Repr

/-- Embedding of `DBus._send` (gdbus.py lines 104-125): spawn failure
(`OSError`) raises `DBusFatalError`; a process that completes with non-zero
`returncode` raises `DBusReturnError` (its output discarded); a process that
exits 0 returns its decoded standard output. -/
def DBus.send (transport : Transport) (command : String) : Except DBusError String :=
  match transport command with
  | .spawnFailure => .error .DBusFatalError
  | .completed returncode stdout =>
      if returncode ≠ 0 then .error .DBusReturnError else .ok stdout

/-- Embedding of `DBus._gvariant` (gdbus.py lines 79-82): the identity on the
raw response text. -/
def DBus.gvariant (raw : String) : String := raw

/-- Embedding of `DBus._call_dbus` (gdbus.py lines 84-102): format the `CALL`
command with the arguments joined by single spaces (`" ".join(map(str, args))`),
send it, and return `_gvariant` of the response; a `DBusError` from `_send` is
logged and re-raised unchanged.  Returns (result, self after the call, the
commands handed to the transport). -/
def DBus.call_dbus (self : DBus) (transport : Transport) (method : String)
    (args : List String) : Except DBusError String × DBus × List String :=
  let command := CALL self.bus_name self.object_path method (String.intercalate " " args)
  ((DBus.send transport command).map DBus.gvariant, self, [command])

/-- Embedding of the BODY of `DBus._init_proxy` (gdbus.py lines 53-77), i.e.
what executes when the coroutine is awaited: send the `INTROSPECT` command
(a `DBusError` is logged and re-raised), parse the returned data with
`fromstring` (`ET.ParseError` becomes `DBusParseError`), then append
`method.get('name')` for every `.//method` element to `self.methods`.
Returns (result, commands handed to the transport). -/
def DBus.init_proxy (self : DBus) (fromstring : String → Option XMLElem)
    (transport : Transport) : Except DBusError DBus × List String :=
  let command := INTROSPECT self.bus_name self.object_path
  match DBus.send transport command with
  | .error e => (.error e, [command])
  | .ok data =>
      match fromstring data with
      | none => (.error .DBusParseError, [command])
      | some xml =>
          (.ok { self with
                 methods := self.methods ++ xml.findallMethods.map fun m => m.get "name" },
           [command])

/-- Embedding of `DBus.connect` (gdbus.py lines 44-51): construct
`DBus(bus_name, object_path)` with an empty `methods` list, then evaluate
`self._init_proxy()`.  Because the call lacks `await`, it only allocates a
coroutine object whose body never runs, so no command is sent, nothing is
parsed, no error can be raised, and the object is returned as constructed.
The `fromstring` and transport parameters, which the coroutine body would
consume, are therefore unused.  Returns (result, commands handed to the
transport). -/
def DBus.connect (bus_name object_path : String)
    (_fromstring : String → Option XMLElem) (_transport : Transport) :
    Except DBusError DBus × List String :=
  (.ok { bus_name := bus_name, object_path := object_path, methods := [] }, [])

/-- What invoking a method name on the proxy can raise: the `AttributeError`
of `__getattr__` (gdbus.py line 130) for a name outside `self.methods`, or a
`DBusError` propagated from `_call_dbus`. -/
inductive InvokeError where
  | attributeError
  | dbusError (e : DBusError)
  deriving DecidableEq, Repr

/-- Embedding of invoking a method name on the proxy: attribute lookup via
`__getattr__` (gdbus.py lines 127-139) followed by calling and awaiting the
returned `_method_wrapper`.  A name not in `self.methods` raises
`AttributeError` before any wrapper exists, so no command is formatted and
nothing reaches the transport; a known name dispatches to `_call_dbus`.
Returns (result, self after the call, commands handed to the transport). -/
def DBus.invoke (self : DBus) (transport : Transport) (name : String)
    (args : List String) : Except InvokeError String × DBus × List String :=
  if (some name) ∉ self.methods then
    (.error .attributeError, self, [])
  else
    let r := self.call_dbus transport name args
    (r.1.mapError InvokeError.dbusError, r.2.1, r.2.2)

/-- Transport whose spawn always raises `OSError`, for every command line. -/
def spawnFailTransport : Transport := fun _ => ProcResult.spawnFailure

/-- Transport whose process always exits 0 and prints `body`. -/
def okTransport (body : String) : Transport := fun _ => ProcResult.completed 0 body

/-- Concrete model of `ET.fromstring` for one well-formed document: maps the
document text to its parsed tree and everything else to a parse failure. -/
def fromstringStub (text : String) (tree : XMLElem) : String → Option XMLElem :=
  fun s => if s = text then some tree else none

/-- Introspection tree declaring a single method `Ping`. -/
def pingXML : XMLElem :=
  .mk "node" [] [.mk "interface" [("name", "org.test.Iface")]
    [.mk "method" [("name", "Ping")] []]]

/-- Textual form of `pingXML`. -/
def pingXMLText : String :=
  "<node><interface name=\"org.test.Iface\"><method name=\"Ping\"/></interface></node>"

/-- Introspection tree declaring methods `Foo`, `Bar`, `Bar` (duplicate). -/
def fooBarXML : XMLElem :=
  .mk "node" [] [.mk "interface" [("name", "org.test.Iface")]
    [.mk "method" [("name", "Foo")] [], .mk "method" [("name", "Bar")] [],
     .mk "method" [("name", "Bar")] []]]

/-- Textual form of `fooBarXML`. -/
def fooBarXMLText : String :=
  "<node><interface name=\"org.test.Iface\"><method name=\"Foo\"/><method name=\"Bar\"/><method name=\"Bar\"/></interface></node>"

/-- C10: for every bus name, object path, parser and transport behaviour,
`connect` returns without raising — the result is `Except.ok` of a `DBus`
whose method list is empty — and its transport trace is empty: because
`_init_proxy()` is invoked as a coroutine but never awaited, no transport
exchange, XML parse or method-table population executes before `connect`
returns. -/
theorem connect_returns_unpopulated_proxy (bus_name object_path : String)
    (fromstring : String → Option XMLElem) (transport : Transport) :
    DBus.connect bus_name object_path fromstring transport =
      (.ok (DBus.mk bus_name object_path []), []) := rfl

/-- C1 (code bug, against the claim): with a transport whose spawn always
fails, `connect` does not re-raise the failure: it returns the proxy as
`Except.ok` with an empty transport trace, even though the body of
`_init_proxy` — had it been awaited — raises `DBusFatalError`.  A subsequent
invoke does fail, but only with `AttributeError` because the method table is
empty, not with the transport failure `connect` was supposed to surface. -/
theorem connect_ignores_spawn_failure :
    DBus.connect "org.test" "/org/test/obj" (fun _ => none) spawnFailTransport =
      (.ok (DBus.mk "org.test" "/org/test/obj" []), []) ∧
    ((DBus.mk "org.test" "/org/test/obj" []).init_proxy (fun _ => none)
        spawnFailTransport).1 = .error .DBusFatalError ∧
    ((DBus.mk "org.test" "/org/test/obj" []).invoke spawnFailTransport "Ping" []).1 =
      .error .attributeError := ⟨rfl, rfl, rfl⟩

/-- C2 (code bug, against the claim): with a transport that successfully
returns a well-formed introspection document declaring method `Ping`,
`connect` still returns a proxy with an EMPTY method table (no transport
exchange happens at all), and invoking `Ping` on that proxy fails with
`AttributeError`; only the never-awaited `_init_proxy` body would have
recorded `Ping` in the method table. -/
theorem connect_never_populates_methods :
    DBus.connect "org.test" "/org/test/obj" (fromstringStub pingXMLText pingXML)
        (okTransport pingXMLText) =
      (.ok (DBus.mk "org.test" "/org/test/obj" []), []) ∧
    ((DBus.mk "org.test" "/org/test/obj" []).invoke (okTransport pingXMLText)
        "Ping" []).1 = .error .attributeError ∧
    ((DBus.mk "org.test" "/org/test/obj" []).init_proxy
        (fromstringStub pingXMLText pingXML) (okTransport pingXMLText)).1 =
      .ok (DBus.mk "org.test" "/org/test/obj" [some "Ping"]) := by
  refine ⟨rfl, rfl, ?_⟩
  simp [DBus.init_proxy, DBus.send, okTransport, fromstringStub, pingXMLText, pingXML,
    XMLElem.findallMethods, descendantsList, XMLElem.get, XMLElem.tag, XMLElem.attrs,
    XMLElem.children]

/-- C3 (code bug, against the claim): with a transport that succeeds but
returns an unparseable body, `connect` does not fail with a parse error — it
returns the proxy as `Except.ok` with an empty transport trace; only the
never-awaited `_init_proxy` body raises `DBusParseError`.  The parse-error
kind itself is distinct from the fatal and return-code kinds, as the claim
says. -/
theorem connect_ignores_parse_failure :
    DBus.connect "org.test" "/org/test/obj" (fun _ => none) (okTransport "garbage") =
      (.ok (DBus.mk "org.test" "/org/test/obj" []), []) ∧
    ((DBus.mk "org.test" "/org/test/obj" []).init_proxy (fun _ => none)
        (okTransport "garbage")).1 = .error .DBusParseError ∧
    DBusError.DBusParseError ≠ DBusError.DBusFatalError ∧
    DBusError.DBusParseError ≠ DBusError.DBusReturnError :=
  ⟨rfl, rfl, by decide, by decide⟩

/-- C4: invoking a method name that is not a member of the method table
fails immediately with the unknown-operation error (`AttributeError`), the
proxy state is untouched, and the transport trace is empty — zero external
processes are spawned. -/
theorem invoke_unknown_rejected_locally (self : DBus) (transport : Transport)
    (name : String) (args : List String) (h : (some name) ∉ self.methods) :
    self.invoke transport name args = (.error .attributeError, self, []) := by
  simp [DBus.invoke, h]

/-- C4 witness: a proxy knowing only `Foo` rejects `Bar` locally. -/
theorem invoke_unknown_rejected_locally_witness :
    (DBus.mk "b" "/o" [some "Foo"]).invoke (okTransport "x") "Bar" [] =
      (.error .attributeError, DBus.mk "b" "/o" [some "Foo"], []) :=
  invoke_unknown_rejected_locally _ _ _ _ (by decide)

/-- C5: `_send` realises exactly the three mutually distinct outcomes: spawn
failure gives `DBusFatalError`; exit status 0 returns the decoded standard
output; a completed process with non-zero exit gives `DBusReturnError`
(whose value carries no response body, so the captured output is discarded);
and the fatal and return-code kinds are distinct. -/
theorem send_outcome_trichotomy (transport : Transport) (command : String) :
    (transport command = .spawnFailure →
      DBus.send transport command = .error .DBusFatalError) ∧
    (∀ stdout, transport command = .completed 0 stdout →
      DBus.send transport command = .ok stdout) ∧
    (∀ returncode stdout, transport command = .completed returncode stdout →
      returncode ≠ 0 → DBus.send transport command = .error .DBusReturnError) ∧
    DBusError.DBusFatalError ≠ DBusError.DBusReturnError := by
  refine ⟨fun h => ?_, fun stdout h => ?_, fun returncode stdout h hrc => ?_, by decide⟩
  · simp [DBus.send, h]
  · simp [DBus.send, h]
  · simp [DBus.send, h, hrc]

/-- C5 witness: a process exiting 1 yields the return-code error. -/
theorem send_outcome_trichotomy_witness :
    DBus.send (fun _ => ProcResult.completed 1 "body") "cmd" = .error .DBusReturnError :=
  (send_outcome_trichotomy (fun _ => ProcResult.completed 1 "body") "cmd").2.2.1 1 "body"
    rfl (by decide)

/-- C6: invoking a known method hands the transport exactly one command line,
in which the method identifier is qualified as `objectPath.methodName` and
the argument segment is the arguments joined by single spaces. -/
theorem invoke_marshals_qualified_command (self : DBus) (transport : Transport)
    (method : String) (args : List String) (h : (some method) ∈ self.methods) :
    (self.invoke transport method args).2.2 =
      ["gdbus call --system --dest " ++ self.bus_name ++ " --object-path " ++
        self.object_path ++ " --method " ++ self.object_path ++ "." ++ method ++
        " " ++ String.intercalate " " args] := by
  simp [DBus.invoke, DBus.call_dbus, CALL, h]

/-- C6 witness: arguments `a` and `2` produce the literal argument segment
`a 2` and the qualified identifier `/o.M`. -/
theorem invoke_marshals_qualified_command_witness :
    ((DBus.mk "b" "/o" [some "M"]).invoke (okTransport "x") "M" ["a", "2"]).2.2 =
      ["gdbus call --system --dest b --object-path /o --method /o.M a 2"] := by
  rw [invoke_marshals_qualified_command (DBus.mk "b" "/o" [some "M"]) (okTransport "x")
    "M" ["a", "2"] (by decide)]
  decide

/-- C7: when the transport exchange for a known method succeeds, invoke
returns exactly the transport's raw textual response: `_gvariant` is the
identity, so no decoding or transformation is applied. -/
theorem invoke_returns_raw_response (self : DBus) (transport : Transport)
    (method : String) (args : List String) (stdout : String)
    (hm : (some method) ∈ self.methods)
    (ht : transport (CALL self.bus_name self.object_path method
            (String.intercalate " " args)) = .completed 0 stdout) :
    (self.invoke transport method args).1 = .ok stdout ∧
    DBus.gvariant stdout = stdout := by
  refine ⟨?_, rfl⟩
  simp [DBus.invoke, DBus.call_dbus, DBus.send, hm, ht]
  rfl

/-- C7 witness: a transport that prints `raw` makes invoke return `raw`. -/
theorem invoke_returns_raw_response_witness :
    ((DBus.mk "b" "/o" [some "M"]).invoke (okTransport "raw") "M" []).1 = .ok "raw" :=
  (invoke_returns_raw_response (DBus.mk "b" "/o" [some "M"]) (okTransport "raw") "M" []
    "raw" (by decide) rfl).1

/-- C9: a failed invoke leaves the proxy exactly as it was — same bus name,
object path and method table — and any subsequent invoke on the resulting
proxy behaves exactly as an invoke on the original proxy. -/
theorem invoke_failure_preserves_state (self : DBus) (transport : Transport)
    (name : String) (args : List String) (e : InvokeError)
    (hfail : (self.invoke transport name args).1 = .error e) :
    (self.invoke transport name args).2.1 = self ∧
    ∀ (transport2 : Transport) (name2 : String) (args2 : List String),
      ((self.invoke transport name args).2.1).invoke transport2 name2 args2 =
        self.invoke transport2 name2 args2 := by
  have hstate : (self.invoke transport name args).2.1 = self := by
    unfold DBus.invoke
    split
    · rfl
    · rfl
  exact ⟨hstate, fun transport2 name2 args2 => by rw [hstate]⟩

/-- C9 witness: after a failed (unknown-name) invoke the state is intact. -/
theorem invoke_failure_preserves_state_witness :
    ((DBus.mk "b" "/o" []).invoke (okTransport "x") "Ping" []).2.1 =
      DBus.mk "b" "/o" [] :=
  (invoke_failure_preserves_state (DBus.mk "b" "/o" []) (okTransport "x") "Ping" []
    .attributeError rfl).1

/-- C8 (code bug, against the claim): with a transport successfully
returning an introspection document declaring `Foo`, `Bar`, `Bar`, after
`connect` the method table is empty and even `Foo` is rejected as unknown;
the never-awaited `_init_proxy` body would have recorded
`[Foo, Bar, Bar]`, on which membership indeed collapses the duplicate:
`Foo` and `Bar` dispatch to the transport while `Baz` is rejected. -/
theorem duplicate_methods_connect_vs_introspection :
    DBus.connect "org.test" "/org/test/obj" (fromstringStub fooBarXMLText fooBarXML)
        (okTransport fooBarXMLText) =
      (.ok (DBus.mk "org.test" "/org/test/obj" []), []) ∧
    ((DBus.mk "org.test" "/org/test/obj" []).invoke (okTransport fooBarXMLText)
        "Foo" []).1 = .error .attributeError ∧
    ((DBus.mk "org.test" "/org/test/obj" []).init_proxy
        (fromstringStub fooBarXMLText fooBarXML) (okTransport fooBarXMLText)).1 =
      .ok (DBus.mk "org.test" "/org/test/obj" [some "Foo", some "Bar", some "Bar"]) ∧
    ((DBus.mk "org.test" "/org/test/obj" [some "Foo", some "Bar", some "Bar"]).invoke
        (okTransport "ret") "Foo" []).1 = .ok "ret" ∧
    ((DBus.mk "org.test" "/org/test/obj" [some "Foo", some "Bar", some "Bar"]).invoke
        (okTransport "ret") "Bar" []).1 = .ok "ret" ∧
    ((DBus.mk "org.test" "/org/test/obj" [some "Foo", some "Bar", some "Bar"]).invoke
        (okTransport "ret") "Baz" []).1 = .error .attributeError := by
  refine ⟨rfl, rfl, ?_, rfl, rfl, rfl⟩
  simp [DBus.init_proxy, DBus.send, okTransport, fromstringStub, fooBarXMLText, fooBarXML,
    XMLElem.findallMethods, descendantsList, XMLElem.get, XMLElem.tag, XMLElem.attrs,
    XMLElem.children]

end Gdbus
